import Mathlib

/-!
Verification development for the Auton-Replayer record/playback engine
(`src/include/auton_replay.h`, `src/src/auton_replay.cpp`).

The C++ code is shallowly embedded: machine integers become `Nat`/`Int`
(with explicit wrapping where the C++ conversion wraps), the `float`
heading values become `ℚ` (all heading arithmetic in the claims uses
values exactly representable in `float`), hardware reads (controller,
IMU, clock) become explicit input parameters or input streams, and
hardware writes (motors, pneumatics, controller display) become an
explicit trace of emitted commands and messages.  File I/O is modelled
at `fread`/`fwrite` granularity: a stored file is the optional header
value plus the list of complete records that can be read from it.
-/

/-- Bit positions of the seven tracked buttons (auton_replay.h). -/
def BTN_R1 : Nat := 0

/-- Bit position of R2. -/
def BTN_R2 : Nat := 1

/-- Bit position of L1. -/
def BTN_L1 : Nat := 2

/-- Bit position of L2. -/
def BTN_L2 : Nat := 3

/-- Bit position of X. -/
def BTN_X : Nat := 4

/-- Bit position of A. -/
def BTN_A : Nat := 5

/-- Bit position of B. -/
def BTN_B : Nat := 6

/-- One recorded frame (struct `RecordedFrame` in auton_replay.h).
`timestamp` is a `uint32` millisecond count, the stick values are
`int8`, `heading` is the `float` IMU heading modelled as `ℚ`, and
`buttons` is the packed `uint8` bitmask. -/
structure RecordedFrame where
  timestamp : Nat
  leftStick : Int
  rightStick : Int
  heading : ℚ
  buttons : Nat
  deriving DecidableEq, Repr

/-- Edge detection helper `wasPressed` (auton_replay.cpp line 23):
`(current & (1 << bit)) && !(prev & (1 << bit))`. -/
def wasPressed (current prev bit : Nat) : Bool :=
  current.testBit bit && !(prev.testBit bit)

/-- The first normalization loop in `applyHeadingCorrection`
(`while (error > 180) error -= 360;`). -/
def normalizeSub (e : ℚ) : ℚ :=
  if h : 180 < e then normalizeSub (e - 360) else e
termination_by (⌈e⌉).toNat
decreasing_by
  have h180 : (180 : ℤ) < ⌈e⌉ := by
    have hq : (180 : ℚ) < ⌈e⌉ := lt_of_lt_of_le h (Int.le_ceil e)
    exact_mod_cast hq
  have hc : ⌈e - 360⌉ = ⌈e⌉ - 360 := by simp
  have hlt : ⌈e - 360⌉ < ⌈e⌉ := by omega
  have hpos : (0 : ℤ) < ⌈e⌉ := by omega
  exact (Int.toNat_lt_toNat hpos).mpr hlt

/-- The second normalization loop in `applyHeadingCorrection`
(`while (error < -180) error += 360;`). -/
def normalizeAdd (e : ℚ) : ℚ :=
  if h : e < -180 then normalizeAdd (e + 360) else e
termination_by (-⌊e⌋).toNat
decreasing_by
  have h180 : ⌊e⌋ < -180 := by
    have hf : (⌊e⌋ : ℚ) ≤ e := Int.floor_le e
    have hq : (⌊e⌋ : ℚ) < -180 := lt_of_le_of_lt hf h
    exact_mod_cast hq
  have hc : ⌊e + 360⌋ = ⌊e⌋ + 360 := by simp
  have hlt : -⌊e + 360⌋ < -⌊e⌋ := by omega
  have hpos : (0 : ℤ) < -⌊e⌋ := by omega
  exact (Int.toNat_lt_toNat hpos).mpr hlt

/-- C truncation toward zero, the semantics of `static_cast<int>` on a
floating-point value. -/
def truncToInt (q : ℚ) : Int :=
  if q < 0 then -⌊-q⌋ else ⌊q⌋

namespace AutonReplay

/-- `AutonReplay::applyHeadingCorrection` (auton_replay.cpp lines 79-103).
Takes the int `left`/`right` values and the two headings, returns the
corrected, truncated and clamped pair. `gain` is the member
`imuCorrectionGain`. -/
def applyHeadingCorrection (left right : Int) (targetHeading currentHeading gain : ℚ) :
    Int × Int :=
  let error := targetHeading - currentHeading
  let error := normalizeAdd (normalizeSub error)
  let correction := error * gain
  let correction := if 30 < correction then (30 : ℚ) else correction
  let correction := if correction < -30 then (-30 : ℚ) else correction
  let left := truncToInt ((left : ℚ) - correction)
  let right := truncToInt ((right : ℚ) + correction)
  let left := if 127 < left then (127 : Int) else left
  let left := if left < -127 then (-127 : Int) else left
  let right := if 127 < right then (127 : Int) else right
  let right := if right < -127 then (-127 : Int) else right
  (left, right)

end AutonReplay

/-- The process-wide toggle latches.  In the C++ source these are the
seven function-local `static bool` variables inside
`AutonReplay::playback` (auton_replay.cpp lines 155-213); being
`static`, they persist across `playback()` invocations. -/
structure Latches where
  intakeForward : Bool
  intakeReverse : Bool
  outtakeForward : Bool
  outtakeReverse : Bool
  midScoring : Bool
  descore : Bool
  unloader : Bool
  deriving DecidableEq, Repr

/-- All latches cleared, the state at process start. -/
def Latches.init : Latches := ⟨false, false, false, false, false, false, false⟩

/-- The latch driven by a given button bit, following the comment block
in auton_replay.h lines 14-20. -/
def latchGet (l : Latches) (bit : Nat) : Bool :=
  if bit = BTN_R1 then l.intakeForward
  else if bit = BTN_R2 then l.intakeReverse
  else if bit = BTN_L1 then l.outtakeForward
  else if bit = BTN_L2 then l.outtakeReverse
  else if bit = BTN_X then l.midScoring
  else if bit = BTN_A then l.descore
  else if bit = BTN_B then l.unloader
  else false

/-- One actuator command issued by the playback path: the
`left_motors.move` / `right_motors.move` / `Intake.move` /
`Outtake.move` calls and the three pneumatic `set_value` calls. -/
inductive Command where
  | leftMove (v : Int)
  | rightMove (v : Int)
  | intakeMove (v : Int)
  | outtakeMove (v : Int)
  | midScoringSet (b : Bool)
  | descoreSet (b : Bool)
  | unloaderSet (b : Bool)
  deriving DecidableEq, Repr

/-- A controller-display message relevant to the claims (the
`master.print` calls in `playback` and `loadFromSD`). -/
inductive Message where
  | noRecording
  | replaying
  | replayComplete
  | loaded (n : Nat)
  deriving DecidableEq, Repr

/-- The member state of the `AutonReplay` class (auton_replay.h lines
34-48).  `isRecording`/`isPlaying` are the `_isRecording`/`_isPlaying`
flags (their public getters return them unchanged). -/
structure AutonReplayState where
  recording : List RecordedFrame
  recordStartTime : Nat
  isRecording : Bool
  isPlaying : Bool
  prevButtons : Nat
  imuCorrectionGain : ℚ
  deriving DecidableEq, Repr

/-- The freshly constructed `AutonReplay` object (all member
initializers from auton_replay.h). -/
def AutonReplayState.init : AutonReplayState :=
  { recording := []
    recordStartTime := 0
    isRecording := false
    isPlaying := false
    prevButtons := 0
    imuCorrectionGain := 2 }

/-- A stored recording file, modelled at `fread` granularity: `header`
is the `uint32` frame count if the first 4 bytes can be read (`none`
models a short header read, e.g. a zero-byte file), and `records` is
the list of complete `RecordedFrame` records the file contains after
the header.  A file that cannot be opened is modelled as
`(none : Option SDFile)` at the call sites. -/
structure SDFile where
  header : Option Nat
  records : List RecordedFrame
  deriving DecidableEq, Repr

/-- `uint32` wrap of an integer, for `pros::millis() - recordStartTime`. -/
def u32OfInt (v : Int) : Nat := (v % (2 : Int) ^ 32).toNat

/-- `static_cast<int8_t>` on an integer value. -/
def toInt8 (v : Int) : Int := (v + 128) % 256 - 128

/-- The `packButtons` helper (auton_replay.cpp lines 10-20): packs the
seven digital reads into one byte, one bit per button. -/
def packButtons (r1 r2 l1 l2 x a b : Bool) : Nat :=
  let buttons := 0
  let buttons := if r1 then buttons ||| (1 <<< BTN_R1) else buttons
  let buttons := if r2 then buttons ||| (1 <<< BTN_R2) else buttons
  let buttons := if l1 then buttons ||| (1 <<< BTN_L1) else buttons
  let buttons := if l2 then buttons ||| (1 <<< BTN_L2) else buttons
  let buttons := if x then buttons ||| (1 <<< BTN_X) else buttons
  let buttons := if a then buttons ||| (1 <<< BTN_A) else buttons
  let buttons := if b then buttons ||| (1 <<< BTN_B) else buttons
  buttons

/-- One tick's worth of live hardware reads consumed by
`AutonReplay::recordFrame`: the clock, the two analog sticks, the IMU
heading and the seven digital button states. -/
structure Sample where
  now : Nat
  leftY : Int
  rightY : Int
  heading : ℚ
  r1 : Bool
  r2 : Bool
  l1 : Bool
  l2 : Bool
  x : Bool
  a : Bool
  b : Bool
  deriving Repr

namespace AutonReplay

/-- `AutonReplay::startRecording` (auton_replay.cpp lines 27-39).  The
IMU reset, display print, rumble and status drawing have no effect on
the member state. -/
def startRecording (now : Nat) (s : AutonReplayState) : AutonReplayState :=
  { s with recording := [], recordStartTime := now, isRecording := true }

/-- `AutonReplay::recordFrame` (auton_replay.cpp lines 58-77).  Returns
immediately when not recording; otherwise samples one frame and appends
it.  The screen-blink block touches no member state. -/
def recordFrame (sample : Sample) (s : AutonReplayState) : AutonReplayState :=
  if !s.isRecording then s
  else
    let frame : RecordedFrame :=
      { timestamp := u32OfInt ((sample.now : Int) - (s.recordStartTime : Int))
        leftStick := toInt8 sample.leftY
        rightStick := toInt8 sample.rightY
        heading := sample.heading
        buttons := packButtons sample.r1 sample.r2 sample.l1 sample.l2
          sample.x sample.a sample.b }
    { s with recording := s.recording ++ [frame] }

/-- The records that end up in the file given the success of each
`fwrite` call (call 0 writes the header, call `i + 1` writes record
`i`); a failed `fwrite` is modelled as writing nothing. -/
def writtenRecords (writeResult : Nat → Bool) : Nat → List RecordedFrame → List RecordedFrame
  | _, [] => []
  | i, f :: rest =>
    if writeResult i then f :: writtenRecords writeResult (i + 1) rest
    else writtenRecords writeResult (i + 1) rest

/-- `AutonReplay::saveToSD` (auton_replay.cpp lines 258-275).  `canOpen`
models whether `fopen` succeeds; `writeResult i` models whether the
`i`-th `fwrite` call writes its full item.  The source never inspects
the `fwrite` return values, so the returned `Bool` is `true` whenever
the file opens. -/
def saveToSD (canOpen : Bool) (writeResult : Nat → Bool) (s : AutonReplayState) :
    Bool × Option SDFile :=
  if !canOpen then (false, none)
  else
    let frameCount := s.recording.length % 2 ^ 32
    let file : SDFile :=
      { header := if writeResult 0 then some frameCount else none
        records := writtenRecords writeResult 1 s.recording }
    (true, some file)

/-- `AutonReplay::stopRecording` (auton_replay.cpp lines 41-56): clears
the recording flag and, when `save` is set, runs `saveToSD`. -/
def stopRecording (save canOpen : Bool) (writeResult : Nat → Bool) (s : AutonReplayState) :
    AutonReplayState × Option SDFile :=
  let s := { s with isRecording := false }
  if save then
    let r := saveToSD canOpen writeResult s
    (s, r.2)
  else (s, none)

/-- `AutonReplay::loadFromSD` (auton_replay.cpp lines 277-311).  Returns
the `bool` result, the updated object state and the display messages.
Mirrors the source exactly: open failure, header-read failure and the
`frameCount > 15000` bound all return `false` with the member log
untouched; only a short read of a record body clears the log.  On
success the log is replaced by the first `frameCount` records. -/
def loadFromSD (file : Option SDFile) (s : AutonReplayState) :
    Bool × AutonReplayState × List Message :=
  match file with
  | none => (false, s, [])
  | some f =>
    match f.header with
    | none => (false, s, [])
    | some frameCount =>
      if 15000 < frameCount then (false, s, [])
      else if frameCount ≤ f.records.length then
        (true, { s with recording := f.records.take frameCount },
          [Message.loaded frameCount])
      else
        (false, { s with recording := [] }, [])

end AutonReplay

namespace AutonReplay

/-- The loop-carried playback state: the count of frames dispatched so
far (which indexes the IMU heading reads), the `prevButtons` member,
the static latches, and the actuator commands issued so far. -/
structure FoldState where
  imuIdx : Nat
  prev : Nat
  latches : Latches
  commands : List Command
  deriving DecidableEq, Repr

/-- The R1 if-block of the dispatch body (auton_replay.cpp lines
153-162): on a rising edge of R1, flip the `intakeForward` latch and
command the intake accordingly. -/
def stepR1 (current prev : Nat) (st : Latches × List Command) : Latches × List Command :=
  if wasPressed current prev BTN_R1 then
    let v := !st.1.intakeForward
    ({ st.1 with intakeForward := v },
      st.2 ++ [Command.intakeMove (if v then 127 else 0)])
  else st

/-- The R2 if-block (auton_replay.cpp lines 163-172). -/
def stepR2 (current prev : Nat) (st : Latches × List Command) : Latches × List Command :=
  if wasPressed current prev BTN_R2 then
    let v := !st.1.intakeReverse
    ({ st.1 with intakeReverse := v },
      st.2 ++ [Command.intakeMove (if v then -127 else 0)])
  else st

/-- The L1 if-block (auton_replay.cpp lines 175-183). -/
def stepL1 (current prev : Nat) (st : Latches × List Command) : Latches × List Command :=
  if wasPressed current prev BTN_L1 then
    let v := !st.1.outtakeForward
    ({ st.1 with outtakeForward := v },
      st.2 ++ [Command.outtakeMove (if v then 127 else 0)])
  else st

/-- The L2 if-block (auton_replay.cpp lines 184-192). -/
def stepL2 (current prev : Nat) (st : Latches × List Command) : Latches × List Command :=
  if wasPressed current prev BTN_L2 then
    let v := !st.1.outtakeReverse
    ({ st.1 with outtakeReverse := v },
      st.2 ++ [Command.outtakeMove (if v then -127 else 0)])
  else st

/-- The X if-block (auton_replay.cpp lines 195-204): flips the
mid-scoring latch, always sets the pneumatic to the new value, and when
entering the mode additionally drives intake and outtake in reverse. -/
def stepX (current prev : Nat) (st : Latches × List Command) : Latches × List Command :=
  if wasPressed current prev BTN_X then
    let v := !st.1.midScoring
    ({ st.1 with midScoring := v },
      st.2 ++ [Command.midScoringSet v] ++
        (if v then [Command.intakeMove (-127), Command.outtakeMove (-127)] else []))
  else st

/-- The A if-block (auton_replay.cpp lines 207-211). -/
def stepA (current prev : Nat) (st : Latches × List Command) : Latches × List Command :=
  if wasPressed current prev BTN_A then
    let v := !st.1.descore
    ({ st.1 with descore := v }, st.2 ++ [Command.descoreSet v])
  else st

/-- The B if-block (auton_replay.cpp lines 212-216). -/
def stepB (current prev : Nat) (st : Latches × List Command) : Latches × List Command :=
  if wasPressed current prev BTN_B then
    let v := !st.1.unloader
    ({ st.1 with unloader := v }, st.2 ++ [Command.unloaderSet v])
  else st

/-- The body of the inner dispatch loop for one frame (auton_replay.cpp
lines 135-219): heading-corrected drive commands, then the seven
edge-detected toggle if-blocks in source order, then the `prevButtons`
update.  `liveHeading` is the `imu.get_heading()` read for this frame. -/
def dispatchFrame (frame : RecordedFrame) (prev : Nat) (latches : Latches)
    (liveHeading gain : ℚ) : Latches × Nat × List Command :=
  let lr := applyHeadingCorrection frame.leftStick frame.rightStick
    frame.heading liveHeading gain
  let cmds := [Command.leftMove lr.1, Command.rightMove lr.2]
  let current := frame.buttons
  let st := stepB current prev (stepA current prev (stepX current prev
    (stepL2 current prev (stepL1 current prev (stepR2 current prev
      (stepR1 current prev (latches, cmds)))))))
  (st.1, current, st.2)

/-- Advance the fold state by dispatching one frame. -/
def FoldState.step (st : FoldState) (frame : RecordedFrame) (imu : Nat → ℚ)
    (gain : ℚ) : FoldState :=
  let r := dispatchFrame frame st.prev st.latches (imu st.imuIdx) gain
  { imuIdx := st.imuIdx + 1, prev := r.2.1, latches := r.1,
    commands := st.commands ++ r.2.2 }

/-- The inner `while (frameIndex < recording.size() &&
recording[frameIndex].timestamp <= elapsed)` loop (auton_replay.cpp
line 134): dispatches every leading frame that is due, returning the
remaining frames and the advanced fold state. -/
def dispatchDue (elapsed : Nat) (imu : Nat → ℚ) (gain : ℚ) :
    List RecordedFrame → FoldState → List RecordedFrame × FoldState
  | [], st => ([], st)
  | f :: rest, st =>
    if f.timestamp ≤ elapsed then
      dispatchDue elapsed imu gain rest (st.step f imu gain)
    else (f :: rest, st)

/-- Dispatching a whole list of frames unconditionally; the reference
behaviour the outer loop's poll partition is compared against. -/
def dispatchList (imu : Nat → ℚ) (gain : ℚ) :
    List RecordedFrame → FoldState → FoldState
  | [], st => st
  | f :: rest, st => dispatchList imu gain rest (st.step f imu gain)

/-- The outer `while (frameIndex < recording.size())` loop
(auton_replay.cpp lines 130-231).  `elapsedOf p` is the elapsed
playback time `pros::millis() - playStartTime` observed at the `p`-th
poll iteration.  `fuel` bounds how many polls the model runs: `none`
means the log was not exhausted within `fuel` polls (the C++ loop would
still be running). -/
def playbackLoop (elapsedOf : Nat → Nat) (imu : Nat → ℚ) (gain : ℚ) :
    Nat → Nat → List RecordedFrame → FoldState → Option FoldState
  | _, _, [], st => some st
  | 0, _, _ :: _, _ => none
  | fuel + 1, pollIdx, f :: rest, st =>
    let r := dispatchDue (elapsedOf pollIdx) imu gain (f :: rest) st
    playbackLoop elapsedOf imu gain fuel (pollIdx + 1) r.1 r.2

/-- The outcome of the entry section of `AutonReplay::playback`
(auton_replay.cpp lines 105-128): either the early `NO RECORDING!`
return, or the member state as of entering the polling loop (playing
flag set, `prevButtons` cleared). -/
inductive PlaybackInit where
  | noRec (s : AutonReplayState) (msgs : List Message)
  | entered (s : AutonReplayState) (msgs : List Message)
  deriving Repr

/-- Entry section of `AutonReplay::playback`: when the in-memory log is
empty it first tries `loadFromSD`, returning early on failure;
otherwise it sets `_isPlaying`, clears `prevButtons` and enters the
loop (the IMU reset, settle delay and screen drawing touch no member
state). -/
def playbackInit (file : Option SDFile) (s : AutonReplayState) : PlaybackInit :=
  if s.recording.isEmpty then
    match loadFromSD file s with
    | (false, s', msgs) => PlaybackInit.noRec s' (msgs ++ [Message.noRecording])
    | (true, s', msgs) =>
      PlaybackInit.entered { s' with isPlaying := true, prevButtons := 0 }
        (msgs ++ [Message.replaying])
  else
    PlaybackInit.entered { s with isPlaying := true, prevButtons := 0 }
      [Message.replaying]

/-- Everything observable about one `playback()` call: the member state
and the static latches when the call returns, plus the actuator-command
trace and display messages it produced. -/
structure PlaybackResult where
  state : AutonReplayState
  latches : Latches
  commands : List Command
  messages : List Message
  deriving DecidableEq, Repr

/-- `AutonReplay::playback` (auton_replay.cpp lines 105-246), composed
from `playbackInit` and `playbackLoop`.  On loop exit the four motor
groups are commanded to `0` and the playing flag is cleared.  `none`
models a call still inside the loop after `fuel` polls. -/
def playback (file : Option SDFile) (fuel : Nat) (elapsedOf : Nat → Nat)
    (imu : Nat → ℚ) (s : AutonReplayState) (latches : Latches) :
    Option PlaybackResult :=
  match playbackInit file s with
  | PlaybackInit.noRec s' msgs => some ⟨s', latches, [], msgs⟩
  | PlaybackInit.entered s' msgs =>
    match playbackLoop elapsedOf imu s'.imuCorrectionGain fuel 0 s'.recording
        ⟨0, s'.prevButtons, latches, []⟩ with
    | none => none
    | some st =>
      some ⟨{ s' with isPlaying := false, prevButtons := st.prev }, st.latches,
        st.commands ++
          [Command.leftMove 0, Command.rightMove 0,
            Command.intakeMove 0, Command.outtakeMove 0],
        msgs ++ [Message.replayComplete]⟩

end AutonReplay

/-- The spec's `wrap180`: normalize an angle difference into
[-180, 180] by repeatedly adding/subtracting 360.  This is exactly the
pair of loops in `applyHeadingCorrection` (auton_replay.cpp lines
84-85). -/
def wrap180 (e : ℚ) : ℚ := normalizeAdd (normalizeSub e)

/-- Clamp on rationals, spelled as in the spec:
`clamp(x, lo, hi)`. -/
def clampQ (x lo hi : ℚ) : ℚ :=
  if x < lo then lo else if hi < x then hi else x

/-- Clamp an integer motor command to the valid range [-127, 127]. -/
def clampInt127 (v : Int) : Int :=
  if v < -127 then -127 else if 127 < v then 127 else v

/-- Drive commands as the spec's formula states them, with no integer
truncation:
`left' = clamp(frame.leftStick - correction, -127, 127)` and
`right' = clamp(frame.rightStick + correction, -127, 127)` where
`correction = clamp(wrap180(frame.heading - liveHeading) * gain, -30, 30)`. -/
def specDriveCommands (leftStick rightStick : Int) (frameHeading liveHeading gain : ℚ) :
    ℚ × ℚ :=
  let error := wrap180 (frameHeading - liveHeading)
  let correction := clampQ (error * gain) (-30) 30
  (clampQ ((leftStick : ℚ) - correction) (-127) 127,
    clampQ ((rightStick : ℚ) + correction) (-127) 127)

/-- Shared concrete frame and state used by the witnesses and
counterexamples below. -/
def frameA : RecordedFrame := ⟨20, 5, -5, 0, 3⟩

/-- A state holding the one-frame log `[frameA]`. -/
def stateA : AutonReplayState := { AutonReplayState.init with recording := [frameA] }

/-- A one-frame log whose single frame holds the R1 bit down. -/
def frameR1 : RecordedFrame := ⟨20, 0, 0, 0, 1⟩

/-- A one-frame log state used to exhibit the latch leak. -/
def stateR1 : AutonReplayState := { AutonReplayState.init with recording := [frameR1] }

/-- The member state reached inside `playback`'s polling loop after
`startRecording` and one `recordFrame` tick, with no `stopRecording` in
between: both session flags are set. -/
def bothFlagsState : AutonReplayState :=
  { recording := [⟨20, 0, 0, 0, 0⟩]
    recordStartTime := 0
    isRecording := true
    isPlaying := true
    prevButtons := 0
    imuCorrectionGain := 2 }

theorem normalizeSub_of_le (e : ℚ) (h : e ≤ 180) : normalizeSub e = e := by
  rw [normalizeSub]
  simp [not_lt.mpr h]

theorem normalizeSub_step (e : ℚ) (h : 180 < e) :
    normalizeSub e = normalizeSub (e - 360) := by
  rw [normalizeSub]
  simp [h]

theorem normalizeAdd_of_ge (e : ℚ) (h : -180 ≤ e) : normalizeAdd e = e := by
  rw [normalizeAdd]
  simp [not_lt.mpr h]

theorem normalizeAdd_step (e : ℚ) (h : e < -180) :
    normalizeAdd e = normalizeAdd (e + 360) := by
  rw [normalizeAdd]
  simp [h]

theorem wrap180_eq_self (e : ℚ) (h1 : -180 ≤ e) (h2 : e ≤ 180) : wrap180 e = e := by
  rw [wrap180, normalizeSub_of_le e h2, normalizeAdd_of_ge e h1]

theorem seqClampQ (x : ℚ) :
    (if (if 30 < x then (30 : ℚ) else x) < -30 then (-30 : ℚ)
      else (if 30 < x then (30 : ℚ) else x)) = clampQ x (-30) 30 := by
  unfold clampQ
  split_ifs <;> first | rfl | linarith

theorem seqClampInt (v : Int) :
    (if (if 127 < v then (127 : Int) else v) < -127 then (-127 : Int)
      else (if 127 < v then (127 : Int) else v)) = clampInt127 v := by
  unfold clampInt127
  split_ifs <;> omega

theorem truncToInt_intCast (n : Int) : truncToInt (n : ℚ) = n := by
  unfold truncToInt
  split_ifs with h
  · rw [← Int.cast_neg, Int.floor_intCast]
    omega
  · exact Int.floor_intCast n

/-- The heading-correction code, rewritten as the clamp/truncate
formula it implements. -/
theorem applyHeadingCorrection_formula (l r : Int) (t c g : ℚ) :
    AutonReplay.applyHeadingCorrection l r t c g =
      (clampInt127 (truncToInt ((l : ℚ) - clampQ (wrap180 (t - c) * g) (-30) 30)),
        clampInt127 (truncToInt ((r : ℚ) + clampQ (wrap180 (t - c) * g) (-30) 30))) := by
  simp only [AutonReplay.applyHeadingCorrection, wrap180]
  rw [seqClampQ, seqClampInt, seqClampInt]

theorem clampQ_zero : clampQ 0 (-30) 30 = 0 := by
  unfold clampQ
  norm_num

theorem clampInt127_of_mem (v : Int) (h1 : -127 ≤ v) (h2 : v ≤ 127) :
    clampInt127 v = v := by
  unfold clampInt127
  split_ifs <;> omega

/-- With the live heading equal to the recorded heading the correction
vanishes and in-range stick values pass through unchanged. -/
theorem applyHeadingCorrection_same (l r : Int) (t g : ℚ)
    (hl1 : -127 ≤ l) (hl2 : l ≤ 127) (hr1 : -127 ≤ r) (hr2 : r ≤ 127) :
    AutonReplay.applyHeadingCorrection l r t t g = (l, r) := by
  rw [applyHeadingCorrection_formula]
  rw [sub_self, wrap180_eq_self 0 (by norm_num) (by norm_num), zero_mul, clampQ_zero,
    sub_zero, add_zero, truncToInt_intCast, truncToInt_intCast,
    clampInt127_of_mem l hl1 hl2, clampInt127_of_mem r hr1 hr2]

/-- C2 (counterexample): the claim's output formula
`left' = clamp(frame.leftStick − correction, −127, 127)` is not what the
code computes.  With `leftStick = 100`, recorded heading `1/4`, live
heading `0` and the default gain `2`, the correction is `1/2`; the code
truncates `100 − 1/2` to the integer `99` (the `static_cast<int>` on
line 95), while the claimed formula yields the non-integer `199/2`. -/
theorem heading_correction_spec_formula_counterexample :
    ((AutonReplay.applyHeadingCorrection 100 0 (1/4) 0 2).1 : ℚ) ≠
      (specDriveCommands 100 0 (1/4) 0 2).1 := by
  rw [applyHeadingCorrection_formula]
  have hw : wrap180 ((1 : ℚ)/4 - 0) = 1/4 := by
    rw [sub_zero, wrap180_eq_self _ (by norm_num) (by norm_num)]
  simp only [specDriveCommands, hw]
  have hc : clampQ ((1 : ℚ)/4 * 2) (-30) 30 = 1/2 := by
    unfold clampQ
    norm_num
  rw [hc]
  have h1 : ((100 : Int) : ℚ) - 1/2 = 199/2 := by norm_num
  rw [h1]
  have ht : truncToInt ((199 : ℚ)/2) = 99 := by
    unfold truncToInt
    rw [if_neg (by norm_num), Int.floor_eq_iff]
    norm_num
  rw [ht]
  have hcl : clampInt127 99 = 99 := by
    unfold clampInt127
    norm_num
  rw [hcl]
  unfold clampQ
  norm_num

/-- C2 (amended): for every dispatched frame the code computes
`error = wrap180(frame.heading − liveHeading)` (wrap180 normalizing to
[-180,180] by repeatedly adding/subtracting 360, so that
`wrap180(10 − 350) = 20` and `wrap180(350 − 10) = −20`),
`correction = clamp(error × gain, −30, 30)` (default gain 2, an error
of 40° requesting 80° and clamping to 30°), and the commanded outputs
are `left' = clamp(trunc(frame.leftStick − correction), −127, 127)` and
`right' = clamp(trunc(frame.rightStick + correction), −127, 127)`,
where `trunc` is C truncation toward zero — the claim's formula holds
only up to that integer truncation. -/
theorem heading_correction_formula_with_truncation :
    (∀ (l r : Int) (t c g : ℚ),
      AutonReplay.applyHeadingCorrection l r t c g =
        (clampInt127 (truncToInt ((l : ℚ) - clampQ (wrap180 (t - c) * g) (-30) 30)),
          clampInt127 (truncToInt ((r : ℚ) + clampQ (wrap180 (t - c) * g) (-30) 30)))) ∧
    wrap180 (10 - 350) = 20 ∧ wrap180 (350 - 10) = -20 ∧
    clampQ (40 * 2) (-30) 30 = 30 := by
  refine ⟨applyHeadingCorrection_formula, ?_, ?_, ?_⟩
  · have h : (10 : ℚ) - 350 = -340 := by norm_num
    rw [h, wrap180, normalizeSub_of_le _ (by norm_num), normalizeAdd_step _ (by norm_num)]
    norm_num [normalizeAdd_of_ge]
  · have h : (350 : ℚ) - 10 = 340 := by norm_num
    rw [h, wrap180, normalizeSub_step _ (by norm_num)]
    norm_num [normalizeSub_of_le, normalizeAdd_of_ge]
  · unfold clampQ
    norm_num

/-- C10: `saveToSD` reports failure exactly when the destination file
cannot be opened; the results of the `fwrite` calls are never
inspected, so once `fopen` succeeds the call returns success no matter
how many items each `fwrite` actually wrote. -/
theorem saveToSD_result_eq_canOpen :
    ∀ (canOpen : Bool) (writeResult : Nat → Bool) (s : AutonReplayState),
      (AutonReplay.saveToSD canOpen writeResult s).1 = canOpen := by
  intro canOpen w s
  cases canOpen <;> simp [AutonReplay.saveToSD]

/-- C8: `recordFrame` outside the Recording state is a no-op returning
the object state (log included) unchanged. -/
theorem recordFrame_noop_when_not_recording (sample : Sample) (s : AutonReplayState)
    (h : s.isRecording = false) : AutonReplay.recordFrame sample s = s := by
  simp [AutonReplay.recordFrame, h]

/-- C8 witness: the freshly constructed object is not recording, and a
`recordFrame` call on it changes nothing. -/
theorem recordFrame_noop_witness :
    AutonReplayState.init.isRecording = false ∧
      AutonReplay.recordFrame ⟨0, 0, 0, 0, false, false, false, false, false, false, false⟩
        AutonReplayState.init = AutonReplayState.init :=
  ⟨rfl, recordFrame_noop_when_not_recording _ _ rfl⟩

theorem writtenRecords_all_true (i : Nat) (frames : List RecordedFrame) :
    AutonReplay.writtenRecords (fun _ => true) i frames = frames := by
  induction frames generalizing i with
  | nil => rfl
  | cons f rest ih => simp [AutonReplay.writtenRecords, ih]

/-- C5: for any in-memory log of at most 15000 frames, saving with all
writes succeeding produces the count-prefixed file, and loading that
file back (into any prior object state) succeeds and yields the log
frame-for-frame. -/
theorem save_load_round_trip (s s' : AutonReplayState)
    (h : s.recording.length ≤ 15000) :
    AutonReplay.saveToSD true (fun _ => true) s =
      (true, some ⟨some s.recording.length, s.recording⟩) ∧
    AutonReplay.loadFromSD (some ⟨some s.recording.length, s.recording⟩) s' =
      (true, { s' with recording := s.recording },
        [Message.loaded s.recording.length]) := by
  have hlt : s.recording.length < 4294967296 := by omega
  constructor
  · simp [AutonReplay.saveToSD, writtenRecords_all_true, Nat.mod_eq_of_lt hlt]
  · simp [AutonReplay.loadFromSD, Nat.not_lt.mpr h]

/-- C5 witness: the round trip at a concrete one-frame log. -/
theorem save_load_round_trip_witness :
    stateA.recording.length ≤ 15000 ∧
      (AutonReplay.saveToSD true (fun _ => true) stateA =
        (true, some ⟨some stateA.recording.length, stateA.recording⟩) ∧
      AutonReplay.loadFromSD (some ⟨some stateA.recording.length, stateA.recording⟩)
          AutonReplayState.init =
        (true, { AutonReplayState.init with recording := stateA.recording },
          [Message.loaded stateA.recording.length])) :=
  ⟨by decide, save_load_round_trip stateA AutonReplayState.init (by decide)⟩

/-- C3 (counterexample): a crafted file claiming `frame_count = 15001`
is rejected, but when the prior in-memory log is non-empty the log is
NOT left empty — the bound check on auton_replay.cpp line 291 returns
before `recording.clear()` runs, so the prior log survives. -/
theorem load_oversized_leaves_prior_log :
    AutonReplay.loadFromSD (some ⟨some 15001, []⟩) stateA = (false, stateA, []) ∧
      stateA.recording ≠ [] := by
  constructor
  · rfl
  · simp [stateA]

/-- C3 (amended): a corrupt or oversized stored file always fails the
load, and the in-memory log is never left partially populated with the
file's records: an oversized `frame_count` (> 15000) leaves the prior
log untouched (so it is empty only if it already was), while a short
record read clears the log to empty. -/
theorem loadFromSD_failure_never_partial (f : SDFile) (s : AutonReplayState) (c : Nat)
    (hc : f.header = some c)
    (hbad : 15000 < c ∨ f.records.length < c) :
    (AutonReplay.loadFromSD (some f) s).1 = false ∧
    ((AutonReplay.loadFromSD (some f) s).2.1 = s ∨
      (AutonReplay.loadFromSD (some f) s).2.1 = { s with recording := [] }) ∧
    (15000 < c → (AutonReplay.loadFromSD (some f) s).2.1 = s) ∧
    (c ≤ 15000 → f.records.length < c →
      (AutonReplay.loadFromSD (some f) s).2.1 = { s with recording := [] }) := by
  by_cases hover : 15000 < c
  · have hres : AutonReplay.loadFromSD (some f) s = (false, s, []) := by
      simp [AutonReplay.loadFromSD, hc, hover]
    exact ⟨by rw [hres], Or.inl (by rw [hres]), fun _ => by rw [hres],
      fun hle _ => absurd hover (Nat.not_lt.mpr hle)⟩
  · have hshort : f.records.length < c := by
      rcases hbad with h1 | h2
      · exact absurd h1 hover
      · exact h2
    have hc2 : ¬ c ≤ f.records.length := Nat.not_le.mpr hshort
    have hres : AutonReplay.loadFromSD (some f) s =
        (false, { s with recording := [] }, []) := by
      simp [AutonReplay.loadFromSD, hc, hover, hc2]
    exact ⟨by rw [hres], Or.inr (by rw [hres]), fun h1 => absurd h1 hover,
      fun _ _ => by rw [hres]⟩

/-- C3 witness: the amended statement applied to the crafted
`frame_count = 15001` file over a non-empty prior log. -/
theorem loadFromSD_failure_never_partial_witness :
    (SDFile.mk (some 15001) []).header = some 15001 ∧
      ((15000 : Nat) < 15001 ∨ (SDFile.mk (some 15001) []).records.length < 15001) ∧
      ((AutonReplay.loadFromSD (some ⟨some 15001, []⟩) stateA).1 = false ∧
        ((AutonReplay.loadFromSD (some ⟨some 15001, []⟩) stateA).2.1 = stateA ∨
          (AutonReplay.loadFromSD (some ⟨some 15001, []⟩) stateA).2.1 =
            { stateA with recording := [] }) ∧
        (15000 < 15001 → (AutonReplay.loadFromSD (some ⟨some 15001, []⟩) stateA).2.1 = stateA) ∧
        (15001 ≤ 15000 → (SDFile.mk (some 15001) []).records.length < 15001 →
          (AutonReplay.loadFromSD (some ⟨some 15001, []⟩) stateA).2.1 =
            { stateA with recording := [] })) :=
  ⟨rfl, Or.inl (by decide),
    loadFromSD_failure_never_partial ⟨some 15001, []⟩ stateA 15001 rfl (Or.inl (by decide))⟩

/-- C4 (counterexample): with an empty in-memory log and a stored file
claiming zero frames, `loadFromSD` succeeds, so `playback` does NOT
report "no recording": it enters the playing state, dispatches nothing,
commands the four actuator groups to neutral and reports replay
complete. -/
theorem playback_zero_frame_file_counterexample :
    AutonReplay.playback (some ⟨some 0, []⟩) 1 (fun _ => 0) (fun _ => 0)
        AutonReplayState.init Latches.init =
      some ⟨AutonReplayState.init, Latches.init,
        [Command.leftMove 0, Command.rightMove 0,
          Command.intakeMove 0, Command.outtakeMove 0],
        [Message.loaded 0, Message.replaying, Message.replayComplete]⟩ ∧
    Message.noRecording ∉
      [Message.loaded 0, Message.replaying, Message.replayComplete] ∧
    [Command.leftMove 0, Command.rightMove 0,
      Command.intakeMove 0, Command.outtakeMove 0] ≠ ([] : List Command) := by
  refine ⟨rfl, by decide, by decide⟩

/-- C4 (amended): `playback()` on an empty in-memory log reports
"no recording" and performs zero actuator commands when no storage file
is present, and identically when the file's header cannot be read
(e.g. a zero-byte file); but when the file is readable and claims zero
frames, the load succeeds and playback instead proceeds through an
empty dispatch loop, issuing exactly the four final neutral commands
and reporting replay complete. -/
theorem playback_empty_log_reporting (s : AutonReplayState) (latches : Latches)
    (fuel : Nat) (elapsedOf : Nat → Nat) (imu : Nat → ℚ)
    (recs : List RecordedFrame) (h : s.recording = []) :
    AutonReplay.playback none fuel elapsedOf imu s latches =
      some ⟨s, latches, [], [Message.noRecording]⟩ ∧
    AutonReplay.playback (some ⟨none, recs⟩) fuel elapsedOf imu s latches =
      some ⟨s, latches, [], [Message.noRecording]⟩ ∧
    AutonReplay.playback (some ⟨some 0, recs⟩) fuel elapsedOf imu s latches =
      some ⟨{ s with isPlaying := false, prevButtons := 0 }, latches,
        [Command.leftMove 0, Command.rightMove 0,
          Command.intakeMove 0, Command.outtakeMove 0],
        [Message.loaded 0, Message.replaying, Message.replayComplete]⟩ := by
  have hload : AutonReplay.loadFromSD none s = (false, s, []) := rfl
  have hload2 : AutonReplay.loadFromSD (some ⟨none, recs⟩) s = (false, s, []) := rfl
  have hload3 : AutonReplay.loadFromSD (some ⟨some 0, recs⟩) s =
      (true, { s with recording := [] }, [Message.loaded 0]) := by
    simp [AutonReplay.loadFromSD]
  have hs : ({ s with recording := [] } : AutonReplayState) = s := by
    cases s
    simp_all
  refine ⟨?_, ?_, ?_⟩ <;>
    simp [AutonReplay.playback, AutonReplay.playbackInit, h, hload, hload2, hload3,
      hs, AutonReplay.playbackLoop]

/-- C4 witness: the amended statement at the fresh object. -/
theorem playback_empty_log_reporting_witness :
    AutonReplayState.init.recording = [] ∧
      (AutonReplay.playback none 1 (fun _ => 0) (fun _ => 0)
          AutonReplayState.init Latches.init =
        some ⟨AutonReplayState.init, Latches.init, [], [Message.noRecording]⟩ ∧
      AutonReplay.playback (some ⟨none, []⟩) 1 (fun _ => 0) (fun _ => 0)
          AutonReplayState.init Latches.init =
        some ⟨AutonReplayState.init, Latches.init, [], [Message.noRecording]⟩ ∧
      AutonReplay.playback (some ⟨some 0, []⟩) 1 (fun _ => 0) (fun _ => 0)
          AutonReplayState.init Latches.init =
        some ⟨{ AutonReplayState.init with isPlaying := false, prevButtons := 0 },
          Latches.init,
          [Command.leftMove 0, Command.rightMove 0,
            Command.intakeMove 0, Command.outtakeMove 0],
          [Message.loaded 0, Message.replaying, Message.replayComplete]⟩) :=
  ⟨rfl, playback_empty_log_reporting AutonReplayState.init Latches.init 1
    (fun _ => 0) (fun _ => 0) [] rfl⟩

namespace AutonReplay

theorem stepR1_latches (c p : Nat) (st : Latches × List Command) :
    (stepR1 c p st).1 = { st.1 with intakeForward :=
      if (wasPressed c p BTN_R1) then !st.1.intakeForward else st.1.intakeForward } := by
  unfold stepR1
  split_ifs <;> simp

theorem stepR2_latches (c p : Nat) (st : Latches × List Command) :
    (stepR2 c p st).1 = { st.1 with intakeReverse :=
      if (wasPressed c p BTN_R2) then !st.1.intakeReverse else st.1.intakeReverse } := by
  unfold stepR2
  split_ifs <;> simp

theorem stepL1_latches (c p : Nat) (st : Latches × List Command) :
    (stepL1 c p st).1 = { st.1 with outtakeForward :=
      if (wasPressed c p BTN_L1) then !st.1.outtakeForward else st.1.outtakeForward } := by
  unfold stepL1
  split_ifs <;> simp

theorem stepL2_latches (c p : Nat) (st : Latches × List Command) :
    (stepL2 c p st).1 = { st.1 with outtakeReverse :=
      if (wasPressed c p BTN_L2) then !st.1.outtakeReverse else st.1.outtakeReverse } := by
  unfold stepL2
  split_ifs <;> simp

theorem stepX_latches (c p : Nat) (st : Latches × List Command) :
    (stepX c p st).1 = { st.1 with midScoring :=
      if (wasPressed c p BTN_X) then !st.1.midScoring else st.1.midScoring } := by
  unfold stepX
  split_ifs <;> simp

theorem stepA_latches (c p : Nat) (st : Latches × List Command) :
    (stepA c p st).1 = { st.1 with descore :=
      if (wasPressed c p BTN_A) then !st.1.descore else st.1.descore } := by
  unfold stepA
  split_ifs <;> simp

theorem stepB_latches (c p : Nat) (st : Latches × List Command) :
    (stepB c p st).1 = { st.1 with unloader :=
      if (wasPressed c p BTN_B) then !st.1.unloader else st.1.unloader } := by
  unfold stepB
  split_ifs <;> simp

/-- After dispatching a frame, the `prevButtons` member holds exactly
that frame's mask (the update on auton_replay.cpp line 218). -/
theorem dispatchFrame_prevButtons (f : RecordedFrame) (prev : Nat) (latches : Latches)
    (h g : ℚ) : (dispatchFrame f prev latches h g).2.1 = f.buttons := rfl

/-- Each tracked bit's latch flips exactly on a rising edge of that bit
and is otherwise untouched by the dispatch of a frame. -/
theorem latchGet_dispatchFrame (f : RecordedFrame) (prev : Nat) (latches : Latches)
    (h g : ℚ) (bit : Nat) (hbit : bit < 7) :
    latchGet (dispatchFrame f prev latches h g).1 bit =
      (if wasPressed f.buttons prev bit then !(latchGet latches bit)
        else latchGet latches bit) := by
  simp only [dispatchFrame, stepB_latches, stepA_latches, stepX_latches,
    stepL2_latches, stepL1_latches, stepR2_latches, stepR1_latches]
  interval_cases bit <;>
    simp [latchGet, BTN_R1, BTN_R2, BTN_L1, BTN_L2, BTN_X, BTN_A, BTN_B]

end AutonReplay

/-- C7: during playback a toggle fires only on a rising edge (current
bit set and previous dispatched frame's bit not set): the latch of a
tracked button flips on a dispatched frame exactly when `wasPressed`
holds, each dispatch stores the frame's mask as the next `prevButtons`,
and consequently a button held set across two consecutive dispatched
frames flips its latch exactly once — at the first frame (the rising
edge) — while the second frame's edge test is false. -/
theorem toggle_fires_only_on_rising_edge
    (f f1 f2 : RecordedFrame) (prev : Nat) (latches : Latches) (h h1 h2 g : ℚ)
    (bit : Nat) (hbit : bit < 7) :
    (latchGet (AutonReplay.dispatchFrame f prev latches h g).1 bit =
      (if wasPressed f.buttons prev bit then !(latchGet latches bit)
        else latchGet latches bit)) ∧
    ((AutonReplay.dispatchFrame f prev latches h g).2.1 = f.buttons) ∧
    (f1.buttons.testBit bit = true → f2.buttons.testBit bit = true →
      prev.testBit bit = false →
      (wasPressed f2.buttons (AutonReplay.dispatchFrame f1 prev latches h1 g).2.1 bit
          = false ∧
        latchGet (AutonReplay.dispatchFrame f2
            (AutonReplay.dispatchFrame f1 prev latches h1 g).2.1
            (AutonReplay.dispatchFrame f1 prev latches h1 g).1 h2 g).1 bit =
          !(latchGet latches bit))) := by
  refine ⟨AutonReplay.latchGet_dispatchFrame f prev latches h g bit hbit,
    AutonReplay.dispatchFrame_prevButtons f prev latches h g, ?_⟩
  intro hf1 hf2 hp
  rw [AutonReplay.dispatchFrame_prevButtons]
  have hedge2 : wasPressed f2.buttons f1.buttons bit = false := by
    simp [wasPressed, hf1, hf2]
  refine ⟨hedge2, ?_⟩
  rw [AutonReplay.latchGet_dispatchFrame _ _ _ _ _ _ hbit, hedge2,
    AutonReplay.latchGet_dispatchFrame _ _ _ _ _ _ hbit]
  have hedge1 : wasPressed f1.buttons prev bit = true := by
    simp [wasPressed, hf1, hp]
  rw [hedge1]
  simp

/-- C7 witness: the rising-edge rule applied at bit 0 (R1) with the R1
button held in two consecutive frames. -/
theorem toggle_fires_only_on_rising_edge_witness :
    (0 : Nat) < 7 ∧
      ((latchGet (AutonReplay.dispatchFrame frameR1 0 Latches.init 0 2).1 0 =
        (if wasPressed frameR1.buttons 0 0 then !(latchGet Latches.init 0)
          else latchGet Latches.init 0)) ∧
      ((AutonReplay.dispatchFrame frameR1 0 Latches.init 0 2).2.1 = frameR1.buttons) ∧
      (frameR1.buttons.testBit 0 = true → frameR1.buttons.testBit 0 = true →
        (0 : Nat).testBit 0 = false →
        (wasPressed frameR1.buttons
            (AutonReplay.dispatchFrame frameR1 0 Latches.init 0 2).2.1 0 = false ∧
          latchGet (AutonReplay.dispatchFrame frameR1
              (AutonReplay.dispatchFrame frameR1 0 Latches.init 0 2).2.1
              (AutonReplay.dispatchFrame frameR1 0 Latches.init 0 2).1 0 2).1 0 =
            !(latchGet Latches.init 0)))) :=
  ⟨by decide, toggle_fires_only_on_rising_edge frameR1 frameR1 frameR1 0 Latches.init
    0 0 0 2 0 (by decide)⟩

theorem dispatchFrame_frameR1_fresh :
    AutonReplay.dispatchFrame frameR1 0 Latches.init 0 2 =
      (⟨true, false, false, false, false, false, false⟩, 1,
        [Command.leftMove 0, Command.rightMove 0, Command.intakeMove 127]) := by
  have hC : AutonReplay.applyHeadingCorrection 0 0 0 0 2 = (0, 0) :=
    applyHeadingCorrection_same 0 0 0 2 (by norm_num) (by norm_num) (by norm_num)
      (by norm_num)
  simp +decide [AutonReplay.dispatchFrame, frameR1, AutonReplay.stepR1,
    AutonReplay.stepR2, AutonReplay.stepL1, AutonReplay.stepL2, AutonReplay.stepX,
    AutonReplay.stepA, AutonReplay.stepB, wasPressed, hC, BTN_R1, BTN_R2, BTN_L1,
    BTN_L2, BTN_X, BTN_A, BTN_B, Latches.init]

theorem dispatchFrame_frameR1_latched :
    AutonReplay.dispatchFrame frameR1 0
        ⟨true, false, false, false, false, false, false⟩ 0 2 =
      (⟨false, false, false, false, false, false, false⟩, 1,
        [Command.leftMove 0, Command.rightMove 0, Command.intakeMove 0]) := by
  have hC : AutonReplay.applyHeadingCorrection 0 0 0 0 2 = (0, 0) :=
    applyHeadingCorrection_same 0 0 0 2 (by norm_num) (by norm_num) (by norm_num)
      (by norm_num)
  simp +decide [AutonReplay.dispatchFrame, frameR1, AutonReplay.stepR1,
    AutonReplay.stepR2, AutonReplay.stepL1, AutonReplay.stepL2, AutonReplay.stepX,
    AutonReplay.stepA, AutonReplay.stepB, wasPressed, hC, BTN_R1, BTN_R2, BTN_L1,
    BTN_L2, BTN_X, BTN_A, BTN_B]

theorem playback_frameR1_first :
    AutonReplay.playback none 5 (fun n => 10 * n) (fun _ => 0) stateR1 Latches.init =
      some ⟨{ stateR1 with isPlaying := false, prevButtons := 1 },
        ⟨true, false, false, false, false, false, false⟩,
        [Command.leftMove 0, Command.rightMove 0, Command.intakeMove 127,
          Command.leftMove 0, Command.rightMove 0, Command.intakeMove 0,
          Command.outtakeMove 0],
        [Message.replaying, Message.replayComplete]⟩ := by
  simp +decide [AutonReplay.playback, AutonReplay.playbackInit, stateR1,
    AutonReplay.playbackLoop, AutonReplay.dispatchDue, AutonReplay.FoldState.step,
    dispatchFrame_frameR1_fresh, AutonReplayState.init]

theorem playback_frameR1_second :
    AutonReplay.playback none 5 (fun n => 10 * n) (fun _ => 0)
        { stateR1 with isPlaying := false, prevButtons := 1 }
        ⟨true, false, false, false, false, false, false⟩ =
      some ⟨{ stateR1 with isPlaying := false, prevButtons := 1 },
        ⟨false, false, false, false, false, false, false⟩,
        [Command.leftMove 0, Command.rightMove 0, Command.intakeMove 0,
          Command.leftMove 0, Command.rightMove 0, Command.intakeMove 0,
          Command.outtakeMove 0],
        [Message.replaying, Message.replayComplete]⟩ := by
  simp +decide [AutonReplay.playback, AutonReplay.playbackInit, stateR1,
    AutonReplay.playbackLoop, AutonReplay.dispatchDue, AutonReplay.FoldState.step,
    dispatchFrame_frameR1_latched, AutonReplayState.init]

/-- C1 (code violates the claim): `playback()` resets only the
`prevButtons` mask (auton_replay.cpp line 115); the seven toggle
latches are function-local `static bool`s that are NOT reset, so state
leaks across runs.  On the one-frame log with R1 held, the first call
toggles the intake latch on and issues `Intake.move(127)`, while an
immediately following second call on the very same log finds the latch
still set, toggles it off and issues `Intake.move(0)`: the two runs
produce different toggle-flip sequences, and the latch state left by
the first run differs from the cleared state the second run was
claimed to start from. -/
theorem playback_static_latches_leak :
    (AutonReplay.playback none 5 (fun n => 10 * n) (fun _ => 0) stateR1 Latches.init =
      some ⟨{ stateR1 with isPlaying := false, prevButtons := 1 },
        ⟨true, false, false, false, false, false, false⟩,
        [Command.leftMove 0, Command.rightMove 0, Command.intakeMove 127,
          Command.leftMove 0, Command.rightMove 0, Command.intakeMove 0,
          Command.outtakeMove 0],
        [Message.replaying, Message.replayComplete]⟩) ∧
    (AutonReplay.playback none 5 (fun n => 10 * n) (fun _ => 0)
        { stateR1 with isPlaying := false, prevButtons := 1 }
        ⟨true, false, false, false, false, false, false⟩ =
      some ⟨{ stateR1 with isPlaying := false, prevButtons := 1 },
        ⟨false, false, false, false, false, false, false⟩,
        [Command.leftMove 0, Command.rightMove 0, Command.intakeMove 0,
          Command.leftMove 0, Command.rightMove 0, Command.intakeMove 0,
          Command.outtakeMove 0],
        [Message.replaying, Message.replayComplete]⟩) ∧
    ([Command.leftMove 0, Command.rightMove 0, Command.intakeMove 127,
        Command.leftMove 0, Command.rightMove 0, Command.intakeMove 0,
        Command.outtakeMove 0] ≠
      [Command.leftMove 0, Command.rightMove 0, Command.intakeMove 0,
        Command.leftMove 0, Command.rightMove 0, Command.intakeMove 0,
        Command.outtakeMove 0]) ∧
    (⟨true, false, false, false, false, false, false⟩ : Latches) ≠ Latches.init :=
  ⟨playback_frameR1_first, playback_frameR1_second, by decide, by decide⟩

/-- `loadFromSD` never touches the two session flags. -/
theorem loadFromSD_flags (file : Option SDFile) (s : AutonReplayState) :
    (AutonReplay.loadFromSD file s).2.1.isRecording = s.isRecording ∧
      (AutonReplay.loadFromSD file s).2.1.isPlaying = s.isPlaying := by
  rcases file with _ | f
  · simp [AutonReplay.loadFromSD]
  · rcases hh : f.header with _ | c
    · simp [AutonReplay.loadFromSD, hh]
    · simp only [AutonReplay.loadFromSD, hh]
      split_ifs <;> simp

/-- The member state with which `playback` enters its polling loop. -/
theorem playbackInit_entered_flags (file : Option SDFile) (s s' : AutonReplayState)
    (msgs : List Message)
    (h : AutonReplay.playbackInit file s = AutonReplay.PlaybackInit.entered s' msgs) :
    s'.isRecording = s.isRecording ∧ s'.isPlaying = true := by
  unfold AutonReplay.playbackInit at h
  by_cases hemp : s.recording.isEmpty
  · rw [if_pos hemp] at h
    rcases hl : AutonReplay.loadFromSD file s with ⟨b, t, ms⟩
    rw [hl] at h
    cases b
    · exact absurd h (by simp)
    · have hfl := loadFromSD_flags file s
      rw [hl] at hfl
      cases h
      exact ⟨hfl.1, rfl⟩
  · rw [if_neg hemp] at h
    cases h
    exact ⟨rfl, rfl⟩

/-- The member state of an early "no recording" return. -/
theorem playbackInit_noRec_flags (file : Option SDFile) (s s' : AutonReplayState)
    (msgs : List Message)
    (h : AutonReplay.playbackInit file s = AutonReplay.PlaybackInit.noRec s' msgs) :
    s'.isRecording = s.isRecording ∧ s'.isPlaying = s.isPlaying := by
  unfold AutonReplay.playbackInit at h
  by_cases hemp : s.recording.isEmpty
  · rw [if_pos hemp] at h
    rcases hl : AutonReplay.loadFromSD file s with ⟨b, t, ms⟩
    rw [hl] at h
    cases b
    · have hfl := loadFromSD_flags file s
      rw [hl] at hfl
      cases h
      exact hfl
    · exact absurd h (by simp)
  · rw [if_neg hemp] at h
    exact absurd h (by simp)

/-- A completed `playback` call never modifies the recording flag. -/
theorem playback_preserves_isRecording (file : Option SDFile) (fuel : Nat)
    (elapsedOf : Nat → Nat) (imu : Nat → ℚ) (s : AutonReplayState) (latches : Latches)
    (r : AutonReplay.PlaybackResult)
    (h : AutonReplay.playback file fuel elapsedOf imu s latches = some r) :
    r.state.isRecording = s.isRecording := by
  unfold AutonReplay.playback at h
  rcases hinit : AutonReplay.playbackInit file s with ⟨t, ms⟩ | ⟨t, ms⟩
  · rw [hinit] at h
    simp only at h
    cases h
    exact (playbackInit_noRec_flags file s t ms hinit).1
  · rw [hinit] at h
    simp only at h
    rcases hloop : AutonReplay.playbackLoop elapsedOf imu t.imuCorrectionGain fuel 0
        t.recording ⟨0, t.prevButtons, latches, []⟩ with _ | st
    · rw [hloop] at h
      cases h
    · rw [hloop] at h
      cases h
      exact (playbackInit_entered_flags file s t ms hinit).1

/-- C9 (counterexample): under the public-operation sequence
`startRecording; recordFrame; playback` (no stop in between), the state
with which `playback` enters — and runs — its whole polling loop has
`_isRecording` and `_isPlaying` simultaneously true: nothing in
`playback` (auton_replay.cpp lines 105-120) checks or clears the
recording flag, so the session is not in exactly one of
{Idle, Recording, Playing}. -/
theorem recording_and_playing_simultaneously :
    AutonReplay.playbackInit none
        (AutonReplay.recordFrame ⟨20, 0, 0, 0, false, false, false, false, false, false, false⟩
          (AutonReplay.startRecording 0 AutonReplayState.init)) =
      AutonReplay.PlaybackInit.entered bothFlagsState [Message.replaying] ∧
    bothFlagsState.isRecording = true ∧ bothFlagsState.isPlaying = true := by
  refine ⟨?_, rfl, rfl⟩
  rfl

/-- C9 (amended): the two flags are mutually exclusive provided
`playback` is only invoked while the recording flag is down (as the
intended Idle→Playing transition does): then the loop runs with exactly
the playing flag set, an early no-recording return and every completed
call leave the recording flag down, and no other public operation ever
raises the playing flag.  The code itself does not enforce the
exclusion when `playback` is called mid-Recording. -/
theorem flags_exclusive_when_playback_from_idle (s : AutonReplayState)
    (h : s.isRecording = false) :
    (∀ file s' msgs, AutonReplay.playbackInit file s =
        AutonReplay.PlaybackInit.entered s' msgs →
      s'.isRecording = false ∧ s'.isPlaying = true) ∧
    (∀ file s' msgs, AutonReplay.playbackInit file s =
        AutonReplay.PlaybackInit.noRec s' msgs →
      s'.isRecording = false) ∧
    (∀ file fuel elapsedOf imu latches r,
      AutonReplay.playback file fuel elapsedOf imu s latches = some r →
      r.state.isRecording = false) ∧
    (∀ now, (AutonReplay.startRecording now s).isPlaying = s.isPlaying) ∧
    (∀ sample, (AutonReplay.recordFrame sample s).isPlaying = s.isPlaying) ∧
    (∀ save canOpen writeResult,
      (AutonReplay.stopRecording save canOpen writeResult s).1.isPlaying = s.isPlaying) := by
  refine ⟨?_, ?_, ?_, ?_, ?_, ?_⟩
  · intro file s' msgs hinit
    have hfl := playbackInit_entered_flags file s s' msgs hinit
    exact ⟨hfl.1.trans h, hfl.2⟩
  · intro file s' msgs hinit
    rw [(playbackInit_noRec_flags file s s' msgs hinit).1, h]
  · intro file fuel elapsedOf imu latches r hr
    rw [playback_preserves_isRecording file fuel elapsedOf imu s latches r hr, h]
  · intro now
    rfl
  · intro sample
    unfold AutonReplay.recordFrame
    split_ifs <;> rfl
  · intro save canOpen writeResult
    unfold AutonReplay.stopRecording
    split_ifs <;> rfl

/-- C9 witness: the amended exclusivity guarantees at the fresh object,
whose recording flag is down. -/
theorem flags_exclusive_when_playback_from_idle_witness :
    AutonReplayState.init.isRecording = false ∧
      ((∀ file s' msgs, AutonReplay.playbackInit file AutonReplayState.init =
          AutonReplay.PlaybackInit.entered s' msgs →
        s'.isRecording = false ∧ s'.isPlaying = true) ∧
      (∀ file s' msgs, AutonReplay.playbackInit file AutonReplayState.init =
          AutonReplay.PlaybackInit.noRec s' msgs →
        s'.isRecording = false) ∧
      (∀ file fuel elapsedOf imu latches r,
        AutonReplay.playback file fuel elapsedOf imu AutonReplayState.init latches = some r →
        r.state.isRecording = false) ∧
      (∀ now, (AutonReplay.startRecording now AutonReplayState.init).isPlaying =
        AutonReplayState.init.isPlaying) ∧
      (∀ sample, (AutonReplay.recordFrame sample AutonReplayState.init).isPlaying =
        AutonReplayState.init.isPlaying) ∧
      (∀ save canOpen writeResult,
        (AutonReplay.stopRecording save canOpen writeResult AutonReplayState.init).1.isPlaying =
          AutonReplayState.init.isPlaying)) :=
  ⟨rfl, flags_exclusive_when_playback_from_idle AutonReplayState.init rfl⟩

namespace AutonReplay

theorem dispatchList_append (imu : Nat → ℚ) (g : ℚ) (xs ys : List RecordedFrame)
    (st : FoldState) :
    dispatchList imu g (xs ++ ys) st = dispatchList imu g ys (dispatchList imu g xs st) := by
  induction xs generalizing st with
  | nil => simp [dispatchList]
  | cons f rest ih => simp [dispatchList, ih]

theorem dispatchDue_all (e : Nat) (imu : Nat → ℚ) (g : ℚ)
    (frames : List RecordedFrame) (st : FoldState)
    (h : ∀ f ∈ frames, f.timestamp ≤ e) :
    dispatchDue e imu g frames st = ([], dispatchList imu g frames st) := by
  induction frames generalizing st with
  | nil => simp [dispatchDue, dispatchList]
  | cons f rest ih =>
    have hf : f.timestamp ≤ e := h f (List.mem_cons_self f rest)
    simp [dispatchDue, dispatchList, hf,
      ih (st.step f imu g) (fun x hx => h x (List.mem_cons_of_mem f hx))]

theorem dispatchDue_partition (e : Nat) (imu : Nat → ℚ) (g : ℚ) :
    ∀ (frames : List RecordedFrame) (st : FoldState), ∃ n,
      dispatchDue e imu g frames st =
        (frames.drop n, dispatchList imu g (frames.take n) st) := by
  intro frames
  induction frames with
  | nil => exact fun st => ⟨0, by simp [dispatchDue, dispatchList]⟩
  | cons f rest ih =>
    intro st
    by_cases hf : f.timestamp ≤ e
    · obtain ⟨n, hn⟩ := ih (st.step f imu g)
      exact ⟨n + 1, by simp [dispatchDue, hf, hn, dispatchList]⟩
    · exact ⟨0, by simp [dispatchDue, hf, dispatchList]⟩

theorem playbackLoop_completes (elapsedOf : Nat → Nat) (imu : Nat → ℚ) (g : ℚ) (k : Nat) :
    ∀ (fuel pollIdx : Nat) (frames : List RecordedFrame) (st : FoldState),
      pollIdx ≤ k → k < pollIdx + fuel →
      (∀ f ∈ frames, f.timestamp ≤ elapsedOf k) →
      playbackLoop elapsedOf imu g fuel pollIdx frames st =
        some (dispatchList imu g frames st) := by
  intro fuel
  induction fuel with
  | zero =>
    intro pollIdx frames st h1 h2 _
    omega
  | succ fuel ih =>
    intro pollIdx frames st h1 h2 hdue
    cases frames with
    | nil => simp [playbackLoop, dispatchList]
    | cons f rest =>
      by_cases hpk : pollIdx = k
      · subst hpk
        rw [playbackLoop, dispatchDue_all _ _ _ _ _ hdue]
        simp [playbackLoop]
      · obtain ⟨n, hn⟩ := dispatchDue_partition (elapsedOf pollIdx) imu g (f :: rest) st
        rw [playbackLoop, hn]
        have hk1 : pollIdx + 1 ≤ k := by omega
        have hk2 : k < pollIdx + 1 + fuel := by omega
        have hdue' : ∀ x ∈ (f :: rest).drop n, x.timestamp ≤ elapsedOf k :=
          fun x hx => hdue x (List.drop_subset n (f :: rest) hx)
        rw [ih (pollIdx + 1) ((f :: rest).drop n)
          (dispatchList imu g ((f :: rest).take n) st) hk1 hk2 hdue']
        rw [← dispatchList_append, List.take_append_drop]

end AutonReplay

/-- C6: for a non-empty log, once the elapsed playback clock reaches a
poll at which every frame's timestamp is due (in particular the instant
the last timestamp is reached — no trailing idle tail), the loop
terminates having dispatched exactly the whole log in order: the
command trace is the full-log dispatch trace followed by the four
neutral commands `left_motors.move(0)`, `right_motors.move(0)`,
`Intake.move(0)`, `Outtake.move(0)` (auton_replay.cpp lines 234-237),
and the playing flag is cleared (transition to Idle, line 239). -/
theorem playback_dispatches_all_then_neutral (file : Option SDFile)
    (fuel k : Nat) (elapsedOf : Nat → Nat) (imu : Nat → ℚ)
    (s : AutonReplayState) (latches : Latches)
    (hne : s.recording ≠ [])
    (hdue : ∀ f ∈ s.recording, f.timestamp ≤ elapsedOf k)
    (hk : k < fuel) :
    AutonReplay.playback file fuel elapsedOf imu s latches =
      some ⟨{ s with
                isPlaying := false,
                prevButtons := (AutonReplay.dispatchList imu s.imuCorrectionGain
                  s.recording ⟨0, 0, latches, []⟩).prev },
        (AutonReplay.dispatchList imu s.imuCorrectionGain
          s.recording ⟨0, 0, latches, []⟩).latches,
        (AutonReplay.dispatchList imu s.imuCorrectionGain
          s.recording ⟨0, 0, latches, []⟩).commands ++
          [Command.leftMove 0, Command.rightMove 0,
            Command.intakeMove 0, Command.outtakeMove 0],
        [Message.replaying, Message.replayComplete]⟩ := by
  have hemp : s.recording.isEmpty = false := by
    cases hrec : s.recording with
    | nil => exact absurd hrec hne
    | cons f rest => rfl
  unfold AutonReplay.playback AutonReplay.playbackInit
  rw [hemp]
  simp only [Bool.false_eq_true, if_false]
  rw [AutonReplay.playbackLoop_completes elapsedOf imu s.imuCorrectionGain k fuel 0
    s.recording ⟨0, 0, latches, []⟩ (Nat.zero_le k) (by omega) hdue]
  simp

/-- C6 witness: completion on the concrete one-frame log, polled once
with the clock already past the frame's timestamp. -/
theorem playback_dispatches_all_then_neutral_witness :
    stateR1.recording ≠ [] ∧
      (∀ f ∈ stateR1.recording, f.timestamp ≤ (fun _ : Nat => 100) 0) ∧
      (0 : Nat) < 1 ∧
      AutonReplay.playback none 1 (fun _ => 100) (fun _ => 0) stateR1 Latches.init =
        some ⟨{ stateR1 with
                  isPlaying := false,
                  prevButtons := (AutonReplay.dispatchList (fun _ => 0)
                    stateR1.imuCorrectionGain stateR1.recording
                    ⟨0, 0, Latches.init, []⟩).prev },
          (AutonReplay.dispatchList (fun _ => 0) stateR1.imuCorrectionGain
            stateR1.recording ⟨0, 0, Latches.init, []⟩).latches,
          (AutonReplay.dispatchList (fun _ => 0) stateR1.imuCorrectionGain
            stateR1.recording ⟨0, 0, Latches.init, []⟩).commands ++
            [Command.leftMove 0, Command.rightMove 0,
              Command.intakeMove 0, Command.outtakeMove 0],
          [Message.replaying, Message.replayComplete]⟩ :=
  ⟨by simp [stateR1, AutonReplayState.init],
    by simp [stateR1, AutonReplayState.init, frameR1],
    by decide,
    playback_dispatches_all_then_neutral none 1 0 (fun _ => 100) (fun _ => 0)
      stateR1 Latches.init (by simp [stateR1, AutonReplayState.init])
      (by simp [stateR1, AutonReplayState.init, frameR1]) (by decide)⟩
